import Mathlib

/-!
Shallow embedding of the node-drive directory-synchronization agent:
the `DirectoryWatcher` (scan filters, live-event filter, debounced
classification of settled changes) and the resumable-upload protocol
(server `check`/`upload` handlers, client `ServerApiClient` retry
interceptor and `uploadFileResumable` helper).

Bytes are modelled as `List Nat`, JS strings as `String`, JS number
fields as `Nat` (JSON bodies) or as `String` where they travel through
multipart form data, with `""` standing for an absent/falsy field.
SHA-256 (`crypto.createHash`, an external library) is abstracted as a
parameter `hash : List Nat → String`; no theorem depends on the
concrete digest function.
-/

namespace NodeDrive

/-! ## DirectoryWatcher: options and filters -/

/-- `DirectoryWatcherOptions` after defaulting in the constructor. -/
structure WatcherOptions where
  ignoreHidden : Bool
  fileExtensions : List String
  excludeDirs : List String
deriving Repr, DecidableEq

/-- The defaults applied by the constructor:
`ignoreHidden = true`, no extension filter, `excludeDirs = ["node_modules", ".git"]`. -/
def defaultOptions : WatcherOptions :=
  { ignoreHidden := true, fileExtensions := [], excludeDirs := ["node_modules", ".git"] }

/-- `isExcludedDir`: membership of a name in `options.excludeDirs`. -/
def isExcludedDir (o : WatcherOptions) (dirName : String) : Bool :=
  o.excludeDirs.contains dirName

/-- `name.startsWith "."`: the first character is a dot. -/
def startsWithDot (s : String) : Bool :=
  match s.toList with
  | [] => false
  | c :: _ => c = '.'

/-- `path.extname`: the substring from the last `.` of the base name,
empty when there is no dot or the only dot is the leading character. -/
def extname (n : String) : String :=
  let cs := n.toList
  let rec lastDot : List Char → Option Nat
    | [] => none
    | c :: rest =>
      match lastDot rest with
      | some i => some (i + 1)
      | none => if c = '.' then some 0 else none
  match lastDot cs with
  | none => ""
  | some 0 => ""
  | some i => String.mk (cs.drop i)

/-- `shouldWatchFile`: with an empty extension filter every file passes;
otherwise the file's extension must match one of the configured
extensions case-insensitively. -/
def shouldWatchFile (o : WatcherOptions) (filename : String) : Bool :=
  if o.fileExtensions.isEmpty then true
  else o.fileExtensions.any (fun e => e.toLower == (extname filename).toLower)

/-- Whether the file at relative path `ds ++ [f]` (directory
components `ds`, file name `f`) is reached and reported by
`scanDirectory`: at each directory level an entry that is an excluded
directory is skipped, an entry whose name starts with `.` is skipped
when `ignoreHidden`, and the file entry is skipped when hidden under
`ignoreHidden` or failing `shouldWatchFile`. -/
def scanIncludes (o : WatcherOptions) : List String → String → Bool
  | [], f => !(o.ignoreHidden && startsWithDot f) && shouldWatchFile o f
  | d :: rest, f =>
    !(isExcludedDir o d) && !(o.ignoreHidden && startsWithDot d) && scanIncludes o rest f

/-- Whether the file at relative path `ds ++ [f]` is reported by
`collectFiles` (the worker of `getAllFiles` / `listAllFiles`); the
per-entry checks are the same as `scanDirectory`'s. -/
def collectIncludes (o : WatcherOptions) : List String → String → Bool
  | [], f => !(o.ignoreHidden && startsWithDot f) && shouldWatchFile o f
  | d :: rest, f =>
    !(isExcludedDir o d) && !(o.ignoreHidden && startsWithDot d) && collectIncludes o rest f

/-- Split a path string on `/` into its components
(structural worker; `acc` holds the current component reversed). -/
def splitPathAux : List Char → List Char → List String
  | [], acc => [String.mk acc.reverse]
  | c :: rest, acc =>
    if c = '/' then String.mk acc.reverse :: splitPathAux rest []
    else splitPathAux rest (c :: acc)

/-- The components of a relative path written with `/` separators. -/
def pathComponents (s : String) : List String :=
  splitPathAux s.toList []

/-- The base name of a relative path given as components (`path.basename`). -/
def basenameOf : List String → String
  | [] => ""
  | [f] => f
  | _ :: rest => basenameOf rest

/-- `path.basename` on a relative path written with `/` separators. -/
def basenameStr (s : String) : String :=
  basenameOf (pathComponents s)

/-- The filter `handleFileEvent` applies to a live notification for
the relative path `ds ++ [f]` before debouncing: drop the event if any
path component (`filename.split(path.sep)`) is an excluded directory
name, if the base name `f` starts with `.` under `ignoreHidden`, or if
the base name fails the extension filter. -/
def liveAccepts (o : WatcherOptions) (ds : List String) (f : String) : Bool :=
  !((ds ++ [f]).any (isExcludedDir o)) &&
  !(o.ignoreHidden && startsWithDot f) &&
  shouldWatchFile o f

/-! ## DirectoryWatcher: classification of settled changes -/

/-- `FileState`: the per-path snapshot stored in `fileStates`. -/
structure FileState where
  fsExists : Bool
  mtime : Nat
  size : Nat
deriving Repr, DecidableEq

/-- `FileEventType`. -/
inductive FileEventType where
  | insert
  | update
  | delete
deriving Repr, DecidableEq

/-- `FileEvent` as handed to the consumer callback; `fileBuffer` and
`checksum` are optional fields. -/
structure FileEvent where
  type : FileEventType
  filePath : String
  fileName : String
  fileBuffer : Option (List Nat)
  checksum : Option String
deriving Repr, DecidableEq

/-- The live file state found by re-stat at debounce-fire time:
the path is absent, is a directory, or is a file with an mtime and size. -/
inductive StatResult where
  | absent
  | dir
  | file (mtime : Nat) (size : Nat)
deriving Repr, DecidableEq

/-- The snapshot table `fileStates` (relative path → snapshot). -/
def StateTable := String → Option FileState

/-- `this.fileStates.set(filename, v)`. -/
def setState (states : StateTable) (filename : String) (v : FileState) : StateTable :=
  fun k => if k = filename then some v else states k

/-- `processFileEvent`, run when a path's debounce timer fires.
`stat` is the live state re-read from the filesystem.  Returns the
updated snapshot table and the event passed to the callback, if any.
Classification never trusts the raw notification kind:
a present file with no prior (or a deleted prior) snapshot is INSERT;
a present file whose mtime or size differs from the prior snapshot is
UPDATE; a present unchanged file emits nothing; an absent path is
DELETE only when the prior snapshot says it existed.
For INSERT/UPDATE the try block runs two statements in order:
`event.fileBuffer = fs.readFileSync(absolutePath)` — outcome
`bufRead`, `none` meaning the read threw — and then
`event.checksum = calculateFileChecksum(absolutePath)`, a second,
independent read of the same path — outcome `chkRead`, reached only
when the first statement succeeded.  A throw from either statement is
caught and logged, leaving whatever fields were assigned before it;
the event is delivered to the callback regardless, so a partial
failure delivers `fileBuffer` without `checksum`. -/
def processFileEvent (states : StateTable) (filename : String)
    (stat : StatResult) (bufRead : Option (List Nat)) (chkRead : Option String) :
    StateTable × Option FileEvent :=
  let previousState := states filename
  match stat with
  | .dir => (states, none)
  | .file mt sz =>
    let currentState : FileState := ⟨true, mt, sz⟩
    let emit : Option FileEventType :=
      match previousState with
      | none => some .insert
      | some prev =>
        if prev.fsExists = false then some .insert
        else if mt ≠ prev.mtime ∨ sz ≠ prev.size then some .update
        else none
    match emit with
    | none => (states, none)
    | some ty =>
      let states' : StateTable := setState states filename currentState
      let ev : FileEvent :=
        { type := ty, filePath := filename, fileName := basenameStr filename,
          fileBuffer := bufRead,
          checksum := match bufRead with | none => none | some _ => chkRead }
      (states', some ev)
  | .absent =>
    match previousState with
    | none => (states, none)
    | some prev =>
      if prev.fsExists = false then (states, none)
      else
        let states' : StateTable := setState states filename ⟨false, 0, 0⟩
        (states', some { type := .delete, filePath := filename,
                         fileName := basenameStr filename,
                         fileBuffer := none, checksum := none })

/-! ## Server: upload store -/

/-- `FileMetadata`, one JSON file per upload key under `METADATA_DIR`.
`fileSize` is `Option Nat`: `none` models the `NaN` a non-numeric
`fileSize` form field would parse to (JS `NaN` compares unequal to
everything, which `jsEqSize` reflects). -/
structure FileMetadata where
  username : String
  deviceId : String
  fileName : String
  fileSize : Option Nat
  checksum : String
  uploadId : String
  uploadedSize : Nat
  isComplete : Bool
  lastModified : String
deriving Repr, DecidableEq

/-- Server-side persistent state: the metadata directory (keyed by
file key) and the uploads directory (keyed by `uploadId`; the value is
the partial file's bytes, `none` when no file exists). -/
structure ServerState where
  metadataStore : String → Option FileMetadata
  uploads : String → Option (List Nat)

/-- `getFileKey(username, deviceId, fileName)`:
the string `username + "_" + deviceId + "_" + fileName`.  This is the
only key under which a session's metadata is stored and looked up;
the content checksum plays no part in it. -/
def getFileKey (username deviceId fileName : String) : String :=
  username ++ "_" ++ deviceId ++ "_" ++ fileName

/-- JS `===` between `metadata.fileSize` (possibly `NaN`) and a request
number: `NaN` is equal to nothing. -/
def jsEqSize (m : Option Nat) (n : Nat) : Bool :=
  match m with
  | some v => v = n
  | none => false

/-- JS `parseInt` on a form-data field, restricted to the decimal
numerals that occur in this protocol; `none` models `NaN`
(the result of parsing a non-numeral, e.g. the empty string). -/
def jsParseInt (s : String) : Option Nat :=
  let cs := s.toList
  if cs ≠ [] ∧ cs.all (fun c => c.isDigit) then
    some (cs.foldl (fun acc c => acc * 10 + (c.toNat - 48)) 0)
  else none

/-- `POST /api/upload/check` request body (`express.json`, so
`fileSize` arrives as a number).  `""` models an absent or empty
(falsy) string field. -/
structure CheckRequest where
  username : String
  deviceId : String
  fileName : String
  fileSize : Nat
  checksum : String
deriving Repr, DecidableEq

/-- The JSON body + status the check handler responds with. -/
structure CheckResponse where
  status : Nat
  errorMsg : Option String
  fsExists : Bool
  uploadedSize : Nat
  isComplete : Bool
  shouldRestart : Bool
  uploadId : Option String
deriving Repr, DecidableEq

/-- The found-session part of the `POST /api/upload/check` handler,
given the loaded metadata `m`: complete metadata matching checksum and
size → 409 conflict; size or checksum mismatch → delete the stale
partial file and ask for a restart; otherwise report the partial
file's current size, or the not-found body when the partial file is
missing (`fs.stat` throws). -/
def checkFound (st : ServerState) (r : CheckRequest) (m : FileMetadata) :
    ServerState × CheckResponse :=
  if m.isComplete = true ∧ m.checksum = r.checksum ∧ jsEqSize m.fileSize r.fileSize = true then
    (st, ⟨409, none, true, m.fileSize.getD 0, true, false, some m.uploadId⟩)
  else if jsEqSize m.fileSize r.fileSize = false ∨ m.checksum ≠ r.checksum then
    ({ st with uploads := fun k => if k = m.uploadId then none else st.uploads k },
     ⟨200, none, false, 0, false, true, none⟩)
  else
    match st.uploads m.uploadId with
    | some bytes => (st, ⟨200, none, true, bytes.length, false, false, some m.uploadId⟩)
    | none => (st, ⟨200, none, false, 0, false, false, none⟩)

/-- The `POST /api/upload/check` handler.  Field presence is JS
falsiness (`!username || ... || !fileSize || !checksum`), so the
number `0` fails the `fileSize` test; then the metadata under
`getFileKey` is loaded: none → not found, otherwise `checkFound`.
Returns the possibly-updated server state and the response. -/
def checkUpload (st : ServerState) (r : CheckRequest) :
    ServerState × CheckResponse :=
  if r.username = "" ∨ r.deviceId = "" ∨ r.fileName = "" ∨ r.fileSize = 0
      ∨ r.checksum = "" then
    (st, ⟨400, some "Missing required fields", false, 0, false, false, none⟩)
  else
    match st.metadataStore (getFileKey r.username r.deviceId r.fileName) with
    | none => (st, ⟨200, none, false, 0, false, false, none⟩)
    | some m => checkFound st r m

/-- `POST /api/upload` request: multipart form data, so `fileSize` and
`startByte` are strings (`""` models an absent field); `file` is the
uploaded part's bytes (`none` when no file part was sent — a zero-byte
part is `some []`, which is truthy as `req.file` is an object). -/
structure UploadRequest where
  username : String
  deviceId : String
  fileName : String
  fileSize : String
  checksum : String
  startByte : String
  lastModified : String
  uploadId : String
  file : Option (List Nat)
deriving Repr, DecidableEq

/-- The upload handler's response, with its HTTP status. -/
inductive UploadResult where
  /-- 400 `Missing required fields`. -/
  | missingFields
  /-- 416 `Invalid range for resumable upload`, with `actualSize` and
  `expectedStartByte`. -/
  | rangeMismatch (actualSize : Nat) (expectedStartByte : Nat)
  /-- 416 `Upload file not found for resume`. -/
  | resumeMissing
  /-- 400 `Checksum verification failed`. -/
  | checksumFailed
  /-- 200 `{success: true, uploadId, bytesUploaded, isComplete}`. -/
  | ok (uploadId : String) (bytesUploaded : Nat) (isComplete : Bool)
deriving Repr, DecidableEq

/-- The HTTP status carried by each `UploadResult`. -/
def UploadResult.status : UploadResult → Nat
  | .missingFields => 400
  | .rangeMismatch _ _ => 416
  | .resumeMissing => 416
  | .checksumFailed => 400
  | .ok _ _ _ => 200

/-- The metadata record the upload handler works with: the stored one
under `getFileKey`, or — when none exists — a fresh record with a new
`uuidv4()` (`freshId`), `uploadedSize: 0`, `isComplete: false`, and the
request's declared size parsed from the multipart string. -/
def sessionMetadata (st : ServerState) (r : UploadRequest) (freshId : String) :
    FileMetadata :=
  match st.metadataStore (getFileKey r.username r.deviceId r.fileName) with
  | some m => m
  | none =>
    { username := r.username, deviceId := r.deviceId, fileName := r.fileName,
      fileSize := jsParseInt r.fileSize, checksum := r.checksum, uploadId := freshId,
      uploadedSize := 0, isComplete := false, lastModified := r.lastModified }

/-- `parseInt(startByte || '0')`: an absent (`""`) field defaults to 0. -/
def startByteOf (r : UploadRequest) : Option Nat :=
  jsParseInt (if r.startByte = "" then "0" else r.startByte)

/-- Range validation for resumable uploads: when `startByte > 0`, the
session's partial file must exist and its size must equal `startByte`;
otherwise a 416 result (with the actual size, or the not-found
message).  `none` means the upload may proceed. -/
def rangeCheck (st : ServerState) (uploadId : String) (startByteNum : Option Nat) :
    Option UploadResult :=
  match startByteNum with
  | some n =>
    if n > 0 then
      match st.uploads uploadId with
      | some bytes =>
        if n ≠ bytes.length then some (.rangeMismatch bytes.length n) else none
      | none => some .resumeMissing
    else none
  | none => none

/-- The bytes persisted by the write step: `startByte == 0` overwrites
the partial file with the payload, anything else appends to it
(`fs.open(_, 'a')` creates the file when absent, hence `getD []`). -/
def newBytesOf (st : ServerState) (uploadId : String) (buf : List Nat)
    (startByteNum : Option Nat) : List Nat :=
  if startByteNum = some 0 then buf
  else (st.uploads uploadId).getD [] ++ buf

/-- The write-and-verify phase of the upload handler, after range
validation passed.  When the new size reaches the session's declared
size the checksum of the full persisted bytes is recomputed: on match
the session is saved complete; on mismatch the persisted file is
deleted and 400 returned without saving metadata.  Otherwise the grown
session is saved. -/
def uploadWrite (hash : List Nat → String) (st : ServerState) (fileKey : String)
    (metadata : FileMetadata) (buf : List Nat) (startByteNum : Option Nat) :
    ServerState × UploadResult :=
  let newBytes := newBytesOf st metadata.uploadId buf startByteNum
  let st1 : ServerState :=
    { st with uploads := fun k => if k = metadata.uploadId then some newBytes else st.uploads k }
  let m1 : FileMetadata := { metadata with uploadedSize := newBytes.length }
  let reachedEnd : Bool :=
    match m1.fileSize with
    | some v => decide (v ≤ m1.uploadedSize)
    | none => false
  if reachedEnd then
    if hash newBytes = m1.checksum then
      ({ st1 with metadataStore := fun k =>
            if k = fileKey then some { m1 with isComplete := true } else st1.metadataStore k },
       .ok m1.uploadId m1.uploadedSize true)
    else
      ({ st1 with uploads := fun k => if k = metadata.uploadId then none else st1.uploads k },
       .checksumFailed)
  else
    ({ st1 with metadataStore := fun k =>
          if k = fileKey then some m1 else st1.metadataStore k },
     .ok m1.uploadId m1.uploadedSize false)

/-- The `POST /api/upload` handler.  `hash` abstracts
`calculateChecksum` (SHA-256 of the persisted bytes); `freshId`
abstracts the `uuidv4()` drawn when no metadata exists yet.
Validation is JS falsiness over the string fields and `req.file` (a
zero-byte file part is present, hence truthy); then range validation
(`rangeCheck`) and the write-and-verify phase (`uploadWrite`). -/
def uploadFile (hash : List Nat → String) (freshId : String)
    (st : ServerState) (r : UploadRequest) : ServerState × UploadResult :=
  if r.username = "" ∨ r.deviceId = "" ∨ r.fileName = "" ∨ r.fileSize = ""
      ∨ r.checksum = "" ∨ r.file = none then
    (st, .missingFields)
  else
    match rangeCheck st (sessionMetadata st r freshId).uploadId (startByteOf r) with
    | some res => (st, res)
    | none =>
      uploadWrite hash st (getFileKey r.username r.deviceId r.fileName)
        (sessionMetadata st r freshId) (r.file.getD []) (startByteOf r)

/-- The metadata entry a check request resolves to: the handler's
`loadMetadata(getFileKey(username, deviceId, fileName))`. -/
def sessionOf (st : ServerState) (r : CheckRequest) : Option FileMetadata :=
  st.metadataStore (getFileKey r.username r.deviceId r.fileName)

/-- All required fields of a check request are JS-truthy. -/
def validCheckFields (r : CheckRequest) : Prop :=
  r.username ≠ "" ∧ r.deviceId ≠ "" ∧ r.fileName ≠ "" ∧ r.fileSize ≠ 0 ∧ r.checksum ≠ ""

instance (r : CheckRequest) : Decidable (validCheckFields r) := by
  unfold validCheckFields; infer_instance

/-- All required fields of an upload request are JS-truthy
(`fileSize` is a multipart string here, so only `""` is falsy). -/
def validUploadFields (r : UploadRequest) : Prop :=
  r.username ≠ "" ∧ r.deviceId ≠ "" ∧ r.fileName ≠ "" ∧ r.fileSize ≠ "" ∧
  r.checksum ≠ "" ∧ r.file ≠ none

instance (r : UploadRequest) : Decidable (validUploadFields r) := by
  unfold validUploadFields; infer_instance

/-! ## Client: transport retry interceptor -/

/-- The retry-relevant part of `ServerApiConfig` after defaulting
(`retryAttempts = 3`, `retryDelay = 1000`). -/
structure ClientConfig where
  retryAttempts : Nat
  retryDelay : Nat
deriving Repr, DecidableEq

/-- The mutable markers the interceptor attaches to the axios request
object: `_retry` (undefined → `false`) and `_retryCount`
(undefined → `0`). -/
structure RequestMarks where
  retryFlag : Bool
  retryCount : Nat
deriving Repr, DecidableEq

/-- A fresh request carries neither marker. -/
def freshRequest : RequestMarks := ⟨false, 0⟩

/-- JS `a || d` on numbers: `0` is falsy and falls back to the
default. -/
def jsOrNat (a d : Nat) : Nat :=
  if a = 0 then d else a

/-- The response-error interceptor of `setupInterceptors`.
`status` is `error.response?.status` (`none` when no response arrived).
A retry happens only when the status is exactly `500`, `_retry` has
not been set, and `_retryCount` is below `retryAttempts || 3`; the
request is then re-sent after `(retryDelay || 1000) * newCount`
milliseconds with `_retry := true` and the counter bumped.  Returns
the marked request and the delay, or `none` when the error is thrown
to the caller. -/
def retryStep (cfg : ClientConfig) (status : Option Nat) (req : RequestMarks) :
    Option (RequestMarks × Nat) :=
  if status = some 500 ∧ req.retryFlag = false ∧
      req.retryCount < jsOrNat cfg.retryAttempts 3 then
    let newCount := req.retryCount + 1
    some (⟨true, newCount⟩, jsOrNat cfg.retryDelay 1000 * newCount)
  else
    none

/-- The total number of HTTP requests the interceptor ends up sending
for one logical call, when the k-th request fails with the k-th status
of `failures` while statuses remain and succeeds once the list is
exhausted: one request is sent, and a further batch only when
`retryStep` decides to retry. -/
def requestsSent (cfg : ClientConfig) (req : RequestMarks) :
    List Nat → Nat
  | [] => 1
  | s :: rest =>
    1 + (match retryStep cfg (some s) req with
         | some (req2, _) => requestsSent cfg req2 rest
         | none => 0)

/-! ## Client: resumable upload helper -/

/-- The check response as seen by `uploadFileResumable` (a 409 from
the server has already been converted into a normal response body by
`checkUpload`'s catch clause). -/
structure ClientCheckResponse where
  fsExists : Bool
  uploadedSize : Nat
  isComplete : Bool
  uploadId : Option String
deriving Repr, DecidableEq

/-- The `UploadResponse` body the client receives or synthesizes. -/
structure ClientUploadResponse where
  success : Bool
  uploadId : String
  bytesUploaded : Nat
  isComplete : Bool
deriving Repr, DecidableEq

/-- The structured error (`ServerApiError`) carrying the HTTP status. -/
structure ApiFailure where
  message : String
  statusCode : Option Nat
deriving Repr, DecidableEq

/-- One network call made by the helper, with the arguments that
matter to the protocol: the check request's metadata, or the upload's
`startByte` (`none` = field absent, upload from scratch) and payload. -/
inductive ClientCall where
  | check (fileSize : Nat)
  | upload (startByte : Option Nat) (payload : List Nat) (uploadId : Option String)
deriving Repr, DecidableEq

/-- `uploadFileResumable`: calls Check once; when the check says the
file is complete it synthesizes a success response without uploading;
otherwise it makes exactly one Upload call — resuming from
`checkResponse.uploadedSize` (payload sliced from that offset, the
check's `uploadId` forwarded) when the check reports an existing
partial upload, from byte 0 otherwise.  `uploadOutcome` is what that
single `uploadFile` call would produce; an error (such as a 416) is
rethrown unchanged.  Returns the list of calls made and the result. -/
def uploadFileResumable (file : List Nat) (checkResp : ClientCheckResponse)
    (uploadOutcome : Except ApiFailure ClientUploadResponse) :
    List ClientCall × Except ApiFailure ClientUploadResponse :=
  let fileSize := file.length
  if checkResp.isComplete then
    ([.check fileSize],
     .ok { success := true, uploadId := checkResp.uploadId.getD "",
           bytesUploaded := fileSize, isComplete := true })
  else
    let call : ClientCall :=
      if checkResp.fsExists = true ∧ checkResp.uploadedSize > 0 then
        .upload (some checkResp.uploadedSize) (file.drop checkResp.uploadedSize)
          checkResp.uploadId
      else
        .upload none file none
    ([.check fileSize, call], uploadOutcome)

/-! ## Watcher lemmas -/

theorem setState_self (states : StateTable) (fn : String) (v : FileState) :
    setState states fn v fn = some v := by
  simp [setState]

theorem processFileEvent_insert (states : StateTable) (fn : String) (mt sz : Nat)
    (b : Option (List Nat)) (c : Option String)
    (h : ∀ s, states fn = some s → s.fsExists = false) :
    processFileEvent states fn (.file mt sz) b c =
      (setState states fn ⟨true, mt, sz⟩,
       some { type := .insert, filePath := fn, fileName := basenameStr fn,
              fileBuffer := b,
              checksum := match b with | none => none | some _ => c }) := by
  unfold processFileEvent
  cases hs : states fn with
  | none => simp [hs]
  | some s => simp [hs, h s hs]

theorem processFileEvent_update (states : StateTable) (fn : String)
    (mt0 sz0 mt sz : Nat) (b : Option (List Nat)) (c : Option String)
    (h : states fn = some ⟨true, mt0, sz0⟩) (hdiff : mt ≠ mt0 ∨ sz ≠ sz0) :
    processFileEvent states fn (.file mt sz) b c =
      (setState states fn ⟨true, mt, sz⟩,
       some { type := .update, filePath := fn, fileName := basenameStr fn,
              fileBuffer := b,
              checksum := match b with | none => none | some _ => c }) := by
  unfold processFileEvent
  simp [h, hdiff]

theorem processFileEvent_skipUnchanged (states : StateTable) (fn : String)
    (mt sz : Nat) (b : Option (List Nat)) (c : Option String)
    (h : states fn = some ⟨true, mt, sz⟩) :
    processFileEvent states fn (.file mt sz) b c = (states, none) := by
  unfold processFileEvent
  simp [h]

theorem processFileEvent_delete (states : StateTable) (fn : String)
    (mt0 sz0 : Nat) (b : Option (List Nat)) (c : Option String)
    (h : states fn = some ⟨true, mt0, sz0⟩) :
    processFileEvent states fn .absent b c =
      (setState states fn ⟨false, 0, 0⟩,
       some { type := .delete, filePath := fn, fileName := basenameStr fn,
              fileBuffer := none, checksum := none }) := by
  unfold processFileEvent
  simp [h]

theorem processFileEvent_skipAbsent (states : StateTable) (fn : String)
    (b : Option (List Nat)) (c : Option String)
    (h : ∀ s, states fn = some s → s.fsExists = false) :
    processFileEvent states fn .absent b c = (states, none) := by
  unfold processFileEvent
  cases hs : states fn with
  | none => simp [hs]
  | some s => simp [hs, h s hs]

/-! ## Claim C2 -/

/-- C2: for every path and every settled sequence
create → modify → delete → create (each notification re-stat'd at
debounce-fire time), the classifier emits exactly INSERT, UPDATE,
DELETE, INSERT in that order; moreover a settled notification whose
live stat equals the stored snapshot emits nothing and leaves the
table unchanged, and a settled absent notification over a snapshot
already marked not-existing emits nothing. -/
theorem C2_lifecycleEvents :
    (∀ (states : StateTable) (fn : String) (mt1 sz1 mt2 sz2 mt3 sz3 : Nat)
       (b1 b2 b3 : Option (List Nat)) (c1 c2 c3 : Option String),
       (∀ s, states fn = some s → s.fsExists = false) →
       (mt2 ≠ mt1 ∨ sz2 ≠ sz1) →
       ∃ st1 st2 st3 st4 e1 e2 e3 e4,
         processFileEvent states fn (.file mt1 sz1) b1 c1 = (st1, some e1) ∧
         processFileEvent st1 fn (.file mt2 sz2) b2 c2 = (st2, some e2) ∧
         processFileEvent st2 fn .absent none none = (st3, some e3) ∧
         processFileEvent st3 fn (.file mt3 sz3) b3 c3 = (st4, some e4) ∧
         e1.type = .insert ∧ e2.type = .update ∧ e3.type = .delete ∧
         e4.type = .insert) ∧
    (∀ (states : StateTable) (fn : String) (mt sz : Nat)
       (b : Option (List Nat)) (c : Option String),
       states fn = some ⟨true, mt, sz⟩ →
       processFileEvent states fn (.file mt sz) b c = (states, none)) ∧
    (∀ (states : StateTable) (fn : String) (b : Option (List Nat))
       (c : Option String),
       (∀ s, states fn = some s → s.fsExists = false) →
       processFileEvent states fn .absent b c = (states, none)) := by
  refine ⟨?_, processFileEvent_skipUnchanged, processFileEvent_skipAbsent⟩
  intro states fn mt1 sz1 mt2 sz2 mt3 sz3 b1 b2 b3 c1 c2 c3 h0 hdiff
  have h1 := processFileEvent_insert states fn mt1 sz1 b1 c1 h0
  have hs1 := setState_self states fn ⟨true, mt1, sz1⟩
  have h2 := processFileEvent_update (setState states fn ⟨true, mt1, sz1⟩) fn
    mt1 sz1 mt2 sz2 b2 c2 hs1 hdiff
  have hs2 := setState_self (setState states fn ⟨true, mt1, sz1⟩) fn ⟨true, mt2, sz2⟩
  have h3 := processFileEvent_delete
    (setState (setState states fn ⟨true, mt1, sz1⟩) fn ⟨true, mt2, sz2⟩) fn
    mt2 sz2 none none hs2
  have hs3 := setState_self
    (setState (setState states fn ⟨true, mt1, sz1⟩) fn ⟨true, mt2, sz2⟩) fn ⟨false, 0, 0⟩
  have h4 := processFileEvent_insert
    (setState (setState (setState states fn ⟨true, mt1, sz1⟩) fn ⟨true, mt2, sz2⟩)
      fn ⟨false, 0, 0⟩) fn mt3 sz3 b3 c3
    (by intro s hs; rw [hs3] at hs; cases hs; rfl)
  exact ⟨_, _, _, _, _, _, _, _, h1, h2, h3, h4, rfl, rfl, rfl, rfl⟩

/-- Witness for C2 at a concrete run: a fresh path seeing
(mtime, size) = (1, 1), then (2, 2), then absence, then (3, 3). -/
theorem C2_lifecycleEvents_witness :
    ∃ st1 st2 st3 st4 e1 e2 e3 e4,
      processFileEvent (fun _ => none) "a.txt" (.file 1 1) none none = (st1, some e1) ∧
      processFileEvent st1 "a.txt" (.file 2 2) none none = (st2, some e2) ∧
      processFileEvent st2 "a.txt" .absent none none = (st3, some e3) ∧
      processFileEvent st3 "a.txt" (.file 3 3) none none = (st4, some e4) ∧
      e1.type = .insert ∧ e2.type = .update ∧ e3.type = .delete ∧
      e4.type = .insert :=
  C2_lifecycleEvents.1 (fun _ => none) "a.txt" 1 1 2 2 3 3 none none none
    none none none (fun _ h => by cases h) (Or.inl (by decide))

/-! ## Claim C3 -/

/-- C3 counterexample: the claim says a failed read of an INSERT or
UPDATE suppresses the event entirely; in the code the catch block only
logs, so for a fresh file whose `readFileSync` throws
(`bufRead = none`, so the checksum statement is never reached) the
callback still receives an INSERT event, merely lacking `fileBuffer`
and `checksum`. -/
theorem C3_counterexample :
    (processFileEvent (fun _ => none) "a.txt" (.file 1 5) none none).2 =
      some { type := .insert, filePath := "a.txt", fileName := "a.txt",
             fileBuffer := none, checksum := none } := by
  rfl

/-- C3 amended: a read failure during a settled INSERT/UPDATE is
caught and logged but the event is still delivered to the consumer
callback with whatever was assigned before the throw: when
`readFileSync` itself fails the event carries neither `fileBuffer` nor
`checksum`; when the buffer read succeeds and the independent
checksum re-read (`calculateFileChecksum(absolutePath)`) fails, the
event carries `fileBuffer` and no `checksum`; and in both cases the
event is emitted, not suppressed. -/
theorem C3_readErrorDelivery :
    (∀ (states : StateTable) (fn : String) (stat : StatResult)
       (c : Option String) (ev : FileEvent),
       (processFileEvent states fn stat none c).2 = some ev →
       ev.fileBuffer = none ∧ ev.checksum = none) ∧
    (∀ (states : StateTable) (fn : String) (mt sz : Nat) (buf : List Nat)
       (ev : FileEvent),
       (processFileEvent states fn (.file mt sz) (some buf) none).2 = some ev →
       ev.fileBuffer = some buf ∧ ev.checksum = none) ∧
    (∀ (states : StateTable) (fn : String) (mt sz : Nat)
       (b : Option (List Nat)) (c : Option String),
       (∀ s, states fn = some s → s.fsExists = false) →
       (processFileEvent states fn (.file mt sz) b c).2 ≠ none) := by
  refine ⟨?_, ?_, ?_⟩
  · intro states fn stat c ev h
    cases stat with
    | dir => simp [processFileEvent] at h
    | absent =>
      unfold processFileEvent at h
      cases hs : states fn with
      | none => rw [hs] at h; simp at h
      | some s =>
        rw [hs] at h
        by_cases hex : s.fsExists = false
        · simp [hex] at h
        · simp only [if_neg hex] at h
          cases h
          exact ⟨rfl, rfl⟩
    | file mt sz =>
      unfold processFileEvent at h
      rcases hs : states fn with _ | s
      · rw [hs] at h
        cases h
        exact ⟨rfl, rfl⟩
      · rw [hs] at h
        by_cases hex : s.fsExists = false
        · simp only [if_pos hex] at h
          cases h
          exact ⟨rfl, rfl⟩
        · simp only [if_neg hex] at h
          by_cases hd : mt ≠ s.mtime ∨ sz ≠ s.size
          · simp only [if_pos hd] at h
            cases h
            exact ⟨rfl, rfl⟩
          · simp only [if_neg hd] at h
            simp at h
  · intro states fn mt sz buf ev h
    unfold processFileEvent at h
    rcases hs : states fn with _ | s
    · rw [hs] at h
      cases h
      exact ⟨rfl, rfl⟩
    · rw [hs] at h
      by_cases hex : s.fsExists = false
      · simp only [if_pos hex] at h
        cases h
        exact ⟨rfl, rfl⟩
      · simp only [if_neg hex] at h
        by_cases hd : mt ≠ s.mtime ∨ sz ≠ s.size
        · simp only [if_pos hd] at h
          cases h
          exact ⟨rfl, rfl⟩
        · simp only [if_neg hd] at h
          simp at h
  · intro states fn mt sz b c h0
    rw [processFileEvent_insert states fn mt sz b c h0]
    simp

/-- Witness for C3 at concrete inputs: a fresh path whose
`readFileSync` throws still produces an event, and the partial
failure (buffer `[1]` read, checksum re-read throws) delivers the
buffer without a checksum on the concrete emitted event. -/
theorem C3_readErrorDelivery_witness :
    ((processFileEvent (fun _ => none) "b.txt" (.file 7 9) none none).2 ≠ none) ∧
    ((⟨.insert, "b.txt", "b.txt", some [1], none⟩ : FileEvent).fileBuffer = some [1] ∧
     (⟨.insert, "b.txt", "b.txt", some [1], none⟩ : FileEvent).checksum = none) :=
  ⟨C3_readErrorDelivery.2.2 (fun _ => none) "b.txt" 7 9 none none
      (fun _ h => by cases h),
   C3_readErrorDelivery.2.1 (fun _ => none) "b.txt" 7 9 [1]
     ⟨.insert, "b.txt", "b.txt", some [1], none⟩ rfl⟩

/-! ## Claim C4 -/

/-- C4 counterexample: with `ignoreHidden` on and default options, the
relative path `.h/a.txt` (a file inside a hidden directory) is
excluded by the startup scan and by `listAllFiles`, but the live-event
filter of `handleFileEvent` only tests the base name `a.txt`, so it
accepts the notification — the three filters are not the same
predicate, and a path with a hidden component is not excluded in all
three places. -/
theorem C4_counterexample :
    liveAccepts defaultOptions [".h"] "a.txt" = true ∧
    scanIncludes defaultOptions [".h"] "a.txt" = false ∧
    collectIncludes defaultOptions [".h"] "a.txt" = false := by
  refine ⟨?_, ?_, ?_⟩ <;> decide

/-- C4 amended: the scan filter and the `listAllFiles` filter are the
same predicate on every path; the live filter agrees with them exactly
on the paths whose directory components are not hidden (under
`ignoreHidden`) and whose file name is not an excluded directory name
— the live filter tests hidden-ness only on the base name, and tests
`excludeDirs` on the base name as well. -/
theorem C4_filterCharacterization :
    (∀ (o : WatcherOptions) (ds : List String) (f : String),
       scanIncludes o ds f = collectIncludes o ds f) ∧
    (∀ (o : WatcherOptions) (ds : List String) (f : String),
       (∀ d ∈ ds, (o.ignoreHidden && startsWithDot d) = false) →
       isExcludedDir o f = false →
       liveAccepts o ds f = scanIncludes o ds f) := by
  constructor
  · intro o ds f
    induction ds with
    | nil => rfl
    | cons d rest ih => simp only [scanIncludes, collectIncludes, ih]
  · intro o ds f
    induction ds with
    | nil =>
      intro _ hf
      simp [liveAccepts, scanIncludes, hf]
    | cons d ds' ih =>
      intro hds hf
      have hd := hds d (by simp)
      have ih' := ih (fun x hx => hds x (by simp [hx])) hf
      simp only [liveAccepts, List.cons_append, List.any_cons, scanIncludes,
        Bool.not_or, hd, Bool.not_false, Bool.and_true] at ih' ⊢
      cases hae : isExcludedDir o d
      · simp only [Bool.not_false, Bool.true_and, ih']
      · simp

/-- Witness for C4 at a concrete path: `docs/readme.md` is treated the
same way by all three filters under the default options. -/
theorem C4_filterCharacterization_witness :
    scanIncludes defaultOptions ["docs"] "readme.md" =
      collectIncludes defaultOptions ["docs"] "readme.md" ∧
    liveAccepts defaultOptions ["docs"] "readme.md" =
      scanIncludes defaultOptions ["docs"] "readme.md" :=
  ⟨C4_filterCharacterization.1 defaultOptions ["docs"] "readme.md",
   C4_filterCharacterization.2 defaultOptions ["docs"] "readme.md"
     (by intro d hd; simp at hd; subst hd; decide) (by decide)⟩

/-! ## Server lemmas -/

theorem checkUpload_notFound (st : ServerState) (r : CheckRequest)
    (hv : ¬(r.username = "" ∨ r.deviceId = "" ∨ r.fileName = "" ∨ r.fileSize = 0
      ∨ r.checksum = ""))
    (hm : st.metadataStore (getFileKey r.username r.deviceId r.fileName) = none) :
    checkUpload st r = (st, ⟨200, none, false, 0, false, false, none⟩) := by
  unfold checkUpload
  rw [if_neg hv, hm]

theorem checkUpload_foundMeta (st : ServerState) (r : CheckRequest) (m : FileMetadata)
    (hv : ¬(r.username = "" ∨ r.deviceId = "" ∨ r.fileName = "" ∨ r.fileSize = 0
      ∨ r.checksum = ""))
    (hm : st.metadataStore (getFileKey r.username r.deviceId r.fileName) = some m) :
    checkUpload st r = checkFound st r m := by
  unfold checkUpload
  rw [if_neg hv, hm]

theorem validCheckFields_neg (r : CheckRequest) (hv : validCheckFields r) :
    ¬(r.username = "" ∨ r.deviceId = "" ∨ r.fileName = "" ∨ r.fileSize = 0
      ∨ r.checksum = "") := by
  obtain ⟨h1, h2, h3, h4, h5⟩ := hv
  simp [h1, h2, h3, h4, h5]

theorem validUploadFields_neg (r : UploadRequest) (hv : validUploadFields r) :
    ¬(r.username = "" ∨ r.deviceId = "" ∨ r.fileName = "" ∨ r.fileSize = ""
      ∨ r.checksum = "" ∨ r.file = none) := by
  obtain ⟨h1, h2, h3, h4, h5, h6⟩ := hv
  simp [h1, h2, h3, h4, h5, h6]

theorem sessionMetadata_found (st : ServerState) (r : UploadRequest) (freshId : String)
    (m : FileMetadata)
    (hm : st.metadataStore (getFileKey r.username r.deviceId r.fileName) = some m) :
    sessionMetadata st r freshId = m := by
  unfold sessionMetadata
  rw [hm]

theorem startByteOf_pos (r : UploadRequest) (n : Nat)
    (hp : jsParseInt r.startByte = some n) :
    startByteOf r = some n := by
  unfold startByteOf
  have : r.startByte ≠ "" := by
    intro h
    have h0 : jsParseInt "" = none := by decide
    rw [h, h0] at hp
    cases hp
  rw [if_neg this, hp]

/-! ## Claim C1 -/

/-- C1 counterexample: the claim says sessions are keyed by
(deviceId, contentChecksum).  In the code `getFileKey` is
`username_deviceId_fileName`, so with a stored session for
`("u","d","a.txt")`: a check sharing deviceId `d` and checksum `c` but
named `b.txt` finds no session (`exists:false`), refuting
"same session regardless of fileName"; and a check for the same
`("u","d","a.txt")` with a different checksum `x` still resolves the
same session (it answers `shouldRestart:true`, which only a found
session produces), refuting "different checksums resolve to different
sessions". -/
theorem C1_counterexample :
    ((checkUpload
        ⟨fun k => if k = "u_d_a.txt"
            then some ⟨"u", "d", "a.txt", some 5, "c", "id1", 5, false, ""⟩ else none,
          fun k => if k = "id1" then some [1, 2, 3, 4, 5] else none⟩
        ⟨"u", "d", "a.txt", 5, "c"⟩).2.fsExists = true) ∧
    ((checkUpload
        ⟨fun k => if k = "u_d_a.txt"
            then some ⟨"u", "d", "a.txt", some 5, "c", "id1", 5, false, ""⟩ else none,
          fun k => if k = "id1" then some [1, 2, 3, 4, 5] else none⟩
        ⟨"u", "d", "b.txt", 5, "c"⟩).2.fsExists = false) ∧
    ((checkUpload
        ⟨fun k => if k = "u_d_a.txt"
            then some ⟨"u", "d", "a.txt", some 5, "c", "id1", 5, false, ""⟩ else none,
          fun k => if k = "id1" then some [1, 2, 3, 4, 5] else none⟩
        ⟨"u", "d", "a.txt", 5, "x"⟩).2.shouldRestart = true) := by
  refine ⟨?_, ?_, ?_⟩ <;> decide

/-- C1 amended: upload sessions are keyed by the string
`username + "_" + deviceId + "_" + fileName` — the checksum plays no
part — so any two check requests sharing username, deviceId and
fileName resolve to the same session whatever their checksums or
declared sizes. -/
theorem C1_sessionKeying :
    (∀ (st : ServerState) (r : CheckRequest),
       sessionOf st r =
         st.metadataStore (r.username ++ "_" ++ r.deviceId ++ "_" ++ r.fileName)) ∧
    (∀ (st : ServerState) (r1 r2 : CheckRequest),
       r1.username = r2.username → r1.deviceId = r2.deviceId →
       r1.fileName = r2.fileName →
       sessionOf st r1 = sessionOf st r2) := by
  constructor
  · intro st r
    rfl
  · intro st r1 r2 h1 h2 h3
    unfold sessionOf getFileKey
    rw [h1, h2, h3]

/-- Witness for C1 amended: two concrete requests differing only in
checksum and declared size resolve to the same session. -/
theorem C1_sessionKeying_witness :
    sessionOf ⟨fun _ => none, fun _ => none⟩ ⟨"u", "d", "f", 5, "c1"⟩ =
      sessionOf ⟨fun _ => none, fun _ => none⟩ ⟨"u", "d", "f", 9, "c2"⟩ :=
  C1_sessionKeying.2 ⟨fun _ => none, fun _ => none⟩
    ⟨"u", "d", "f", 5, "c1"⟩ ⟨"u", "d", "f", 9, "c2"⟩ rfl rfl rfl

/-! ## Claim C7 -/

/-- C7 counterexample: the claim's fourth row demands that an
incomplete session with matching checksum and size answers
`{exists:true, uploadedSize:<persisted bytes>, isComplete:false}`;
but when the session's partial file is missing on disk (here: metadata
for `("u","d","f")` recorded 3 of 5 bytes, uploads directory empty —
precisely the state the upload handler leaves after a checksum-mismatch
deletion), `fs.stat` throws and the code answers the no-session
response `{exists:false, uploadedSize:0, isComplete:false}`. -/
theorem C7_counterexample :
    (checkUpload
        ⟨fun k => if k = "u_d_f"
            then some ⟨"u", "d", "f", some 5, "c", "id", 3, false, ""⟩ else none,
          fun _ => none⟩
        ⟨"u", "d", "f", 5, "c"⟩).2 =
      ⟨200, none, false, 0, false, false, none⟩ := by
  decide

/-- C7 amended: the Check operation implements the decision table with
the fourth row split on the presence of the partial file: no session →
not-found; complete session matching checksum and size → 409 conflict
carrying the declared size; differing declared size or checksum →
stale partial file deleted and `shouldRestart:true`; incomplete
matching session with a partial file on disk → `exists:true` with the
persisted byte count; incomplete matching session whose partial file
is missing → the not-found response. -/
theorem C7_checkDecisionTable :
    ∀ (st : ServerState) (r : CheckRequest),
      validCheckFields r →
      (st.metadataStore (getFileKey r.username r.deviceId r.fileName) = none →
        checkUpload st r = (st, ⟨200, none, false, 0, false, false, none⟩)) ∧
      (∀ m, st.metadataStore (getFileKey r.username r.deviceId r.fileName) = some m →
        m.isComplete = true → m.checksum = r.checksum → m.fileSize = some r.fileSize →
        checkUpload st r =
          (st, ⟨409, none, true, r.fileSize, true, false, some m.uploadId⟩)) ∧
      (∀ m, st.metadataStore (getFileKey r.username r.deviceId r.fileName) = some m →
        (m.fileSize ≠ some r.fileSize ∨ m.checksum ≠ r.checksum) →
        (checkUpload st r).1.uploads m.uploadId = none ∧
        (checkUpload st r).2 = ⟨200, none, false, 0, false, true, none⟩) ∧
      (∀ m bytes, st.metadataStore (getFileKey r.username r.deviceId r.fileName) = some m →
        m.isComplete = false → m.checksum = r.checksum → m.fileSize = some r.fileSize →
        st.uploads m.uploadId = some bytes →
        checkUpload st r =
          (st, ⟨200, none, true, bytes.length, false, false, some m.uploadId⟩)) ∧
      (∀ m, st.metadataStore (getFileKey r.username r.deviceId r.fileName) = some m →
        m.isComplete = false → m.checksum = r.checksum → m.fileSize = some r.fileSize →
        st.uploads m.uploadId = none →
        checkUpload st r = (st, ⟨200, none, false, 0, false, false, none⟩)) := by
  intro st r hv
  have hveq := validCheckFields_neg r hv
  refine ⟨?_, ?_, ?_, ?_, ?_⟩
  · intro hnone
    exact checkUpload_notFound st r hveq hnone
  · intro m hm hc hcs hfs
    rw [checkUpload_foundMeta st r m hveq hm]
    unfold checkFound
    rw [if_pos ⟨hc, hcs, by simp [jsEqSize, hfs]⟩, hfs]
    rfl
  · intro m hm hmis
    rw [checkUpload_foundMeta st r m hveq hm]
    unfold checkFound
    have hcond : ¬(m.isComplete = true ∧ m.checksum = r.checksum ∧
        jsEqSize m.fileSize r.fileSize = true) := by
      rcases hmis with h | h
      · intro hand
        apply h
        cases hms : m.fileSize with
        | none => rw [hms] at hand; simp [jsEqSize] at hand
        | some v =>
          rw [hms] at hand
          have := hand.2.2
          simp [jsEqSize] at this
          rw [this]
      · exact fun hand => h hand.2.1
    have hcond2 : jsEqSize m.fileSize r.fileSize = false ∨ m.checksum ≠ r.checksum := by
      rcases hmis with h | h
      · left
        cases hms : m.fileSize with
        | none => simp [jsEqSize]
        | some v =>
          simp only [jsEqSize, decide_eq_false_iff_not]
          intro he
          exact h (by rw [hms, he])
      · right; exact h
    rw [if_neg hcond, if_pos hcond2]
    exact ⟨by simp, rfl⟩
  · intro m bytes hm hic hcs hfs hb
    rw [checkUpload_foundMeta st r m hveq hm]
    unfold checkFound
    have hj : jsEqSize m.fileSize r.fileSize = true := by simp [jsEqSize, hfs]
    have hcond : ¬(m.isComplete = true ∧ m.checksum = r.checksum ∧
        jsEqSize m.fileSize r.fileSize = true) := by
      intro hand
      rw [hic] at hand
      cases hand.1
    have hcond2 : ¬(jsEqSize m.fileSize r.fileSize = false ∨ m.checksum ≠ r.checksum) := by
      rw [hj]
      simp [hcs]
    rw [if_neg hcond, if_neg hcond2, hb]
  · intro m hm hic hcs hfs hb
    rw [checkUpload_foundMeta st r m hveq hm]
    unfold checkFound
    have hj : jsEqSize m.fileSize r.fileSize = true := by simp [jsEqSize, hfs]
    have hcond : ¬(m.isComplete = true ∧ m.checksum = r.checksum ∧
        jsEqSize m.fileSize r.fileSize = true) := by
      intro hand
      rw [hic] at hand
      cases hand.1
    have hcond2 : ¬(jsEqSize m.fileSize r.fileSize = false ∨ m.checksum ≠ r.checksum) := by
      rw [hj]
      simp [hcs]
    rw [if_neg hcond, if_neg hcond2, hb]

/-- Witness for C7 amended: the no-session row at a concrete state. -/
theorem C7_checkDecisionTable_witness :
    checkUpload ⟨fun _ => none, fun _ => none⟩ ⟨"u", "d", "f", 5, "c"⟩ =
      (⟨fun _ => none, fun _ => none⟩, ⟨200, none, false, 0, false, false, none⟩) :=
  (C7_checkDecisionTable ⟨fun _ => none, fun _ => none⟩ ⟨"u", "d", "f", 5, "c"⟩
    (by decide)).1 rfl

/-! ## Claim C5 -/

theorem rangeCheck_mismatch (st : ServerState) (uploadId : String) (n : Nat)
    (bytes : List Nat) (hn : 0 < n) (hb : st.uploads uploadId = some bytes)
    (hne : n ≠ bytes.length) :
    rangeCheck st uploadId (some n) = some (.rangeMismatch bytes.length n) := by
  simp only [rangeCheck]
  rw [if_pos hn]
  simp only [hb]
  rw [if_pos hne]

theorem rangeCheck_fileMissing (st : ServerState) (uploadId : String) (n : Nat)
    (hn : 0 < n) (hb : st.uploads uploadId = none) :
    rangeCheck st uploadId (some n) = some .resumeMissing := by
  simp only [rangeCheck]
  rw [if_pos hn]
  simp only [hb]

theorem rangeCheck_valid (st : ServerState) (uploadId : String)
    (bytes : List Nat) (hb : st.uploads uploadId = some bytes) :
    rangeCheck st uploadId (some bytes.length) = none := by
  simp only [rangeCheck]
  by_cases hn : 0 < bytes.length
  · rw [if_pos hn]
    simp only [hb]
    rw [if_neg (by simp)]
  · rw [if_neg hn]

theorem uploadFile_rangeFault (hash : List Nat → String) (freshId : String)
    (st : ServerState) (r : UploadRequest) (res : UploadResult)
    (hv : ¬(r.username = "" ∨ r.deviceId = "" ∨ r.fileName = "" ∨ r.fileSize = ""
      ∨ r.checksum = "" ∨ r.file = none))
    (hrange : rangeCheck st (sessionMetadata st r freshId).uploadId (startByteOf r) =
      some res) :
    uploadFile hash freshId st r = (st, res) := by
  unfold uploadFile
  rw [if_neg hv, hrange]

theorem uploadFile_proceeds (hash : List Nat → String) (freshId : String)
    (st : ServerState) (r : UploadRequest)
    (hv : ¬(r.username = "" ∨ r.deviceId = "" ∨ r.fileName = "" ∨ r.fileSize = ""
      ∨ r.checksum = "" ∨ r.file = none))
    (hrange : rangeCheck st (sessionMetadata st r freshId).uploadId (startByteOf r) =
      none) :
    uploadFile hash freshId st r =
      uploadWrite hash st (getFileKey r.username r.deviceId r.fileName)
        (sessionMetadata st r freshId) (r.file.getD []) (startByteOf r) := by
  unfold uploadFile
  rw [if_neg hv, hrange]

theorem uploadFile_mismatch416 (hash : List Nat → String) (freshId : String)
    (st : ServerState) (r : UploadRequest) (m : FileMetadata) (bytes : List Nat)
    (n : Nat) (hv : validUploadFields r)
    (hm : st.metadataStore (getFileKey r.username r.deviceId r.fileName) = some m)
    (hp : jsParseInt r.startByte = some n) (hn : 0 < n)
    (hb : st.uploads m.uploadId = some bytes) (hne : n ≠ bytes.length) :
    uploadFile hash freshId st r = (st, .rangeMismatch bytes.length n) := by
  have hvneq := validUploadFields_neg r hv
  apply uploadFile_rangeFault hash freshId st r _ hvneq
  rw [sessionMetadata_found st r freshId m hm, startByteOf_pos r n hp]
  exact rangeCheck_mismatch st m.uploadId n bytes hn hb hne

/-- C5: for upload requests with `startByte > 0`: (a) when the
session's partial file exists with a different size, the handler
answers 416 with the actual persisted size; (b) when the session's
partial file is missing, it answers the 416 resume-missing signal, and
(c) likewise when no session exists at all (the fresh uuid has no
file); (d) resuming a session holding `K` of `S` declared bytes at
`startByte = K` with the remaining bytes whose concatenation hashes to
the session checksum yields success with `bytesUploaded = S` and
`isComplete = true`; (e) a resumed request over an existing partial
file succeeds only if `startByte` equals its exact byte count. -/
theorem C5_resumeRange :
    (∀ (hash : List Nat → String) (freshId : String) (st : ServerState)
       (r : UploadRequest) (m : FileMetadata) (bytes : List Nat) (n : Nat),
       validUploadFields r →
       st.metadataStore (getFileKey r.username r.deviceId r.fileName) = some m →
       jsParseInt r.startByte = some n → 0 < n →
       st.uploads m.uploadId = some bytes → n ≠ bytes.length →
       uploadFile hash freshId st r = (st, .rangeMismatch bytes.length n)) ∧
    (∀ (hash : List Nat → String) (freshId : String) (st : ServerState)
       (r : UploadRequest) (m : FileMetadata) (n : Nat),
       validUploadFields r →
       st.metadataStore (getFileKey r.username r.deviceId r.fileName) = some m →
       jsParseInt r.startByte = some n → 0 < n →
       st.uploads m.uploadId = none →
       uploadFile hash freshId st r = (st, .resumeMissing)) ∧
    (∀ (hash : List Nat → String) (freshId : String) (st : ServerState)
       (r : UploadRequest) (n : Nat),
       validUploadFields r →
       st.metadataStore (getFileKey r.username r.deviceId r.fileName) = none →
       st.uploads freshId = none →
       jsParseInt r.startByte = some n → 0 < n →
       uploadFile hash freshId st r = (st, .resumeMissing)) ∧
    (∀ (hash : List Nat → String) (freshId : String) (st : ServerState)
       (r : UploadRequest) (m : FileMetadata) (P Q : List Nat) (S : Nat),
       validUploadFields r →
       st.metadataStore (getFileKey r.username r.deviceId r.fileName) = some m →
       m.fileSize = some S →
       st.uploads m.uploadId = some P →
       jsParseInt r.startByte = some P.length → 0 < P.length →
       r.file = some Q →
       P.length + Q.length = S →
       hash (P ++ Q) = m.checksum →
       (uploadFile hash freshId st r).2 = .ok m.uploadId S true) ∧
    (∀ (hash : List Nat → String) (freshId : String) (st : ServerState)
       (r : UploadRequest) (m : FileMetadata) (bytes : List Nat) (n : Nat),
       validUploadFields r →
       st.metadataStore (getFileKey r.username r.deviceId r.fileName) = some m →
       jsParseInt r.startByte = some n → 0 < n →
       st.uploads m.uploadId = some bytes →
       (uploadFile hash freshId st r).2.status = 200 →
       n = bytes.length) := by
  refine ⟨?_, ?_, ?_, ?_, ?_⟩
  · intro hash freshId st r m bytes n hv hm hp hn hb hne
    exact uploadFile_mismatch416 hash freshId st r m bytes n hv hm hp hn hb hne
  · intro hash freshId st r m n hv hm hp hn hb
    have hvneq := validUploadFields_neg r hv
    apply uploadFile_rangeFault hash freshId st r _ hvneq
    rw [sessionMetadata_found st r freshId m hm, startByteOf_pos r n hp]
    exact rangeCheck_fileMissing st m.uploadId n hn hb
  · intro hash freshId st r n hv hm hfr hp hn
    have hvneq := validUploadFields_neg r hv
    apply uploadFile_rangeFault hash freshId st r _ hvneq
    have hsm : (sessionMetadata st r freshId).uploadId = freshId := by
      unfold sessionMetadata
      rw [hm]
    rw [hsm, startByteOf_pos r n hp]
    exact rangeCheck_fileMissing st freshId n hn hfr
  · intro hash freshId st r m P Q S hv hm hfS hb hp hn hQ hlen hchk
    have hvneq := validUploadFields_neg r hv
    rw [uploadFile_proceeds hash freshId st r hvneq
      (by rw [sessionMetadata_found st r freshId m hm, startByteOf_pos r P.length hp]
          exact rangeCheck_valid st m.uploadId P hb)]
    rw [sessionMetadata_found st r freshId m hm, startByteOf_pos r P.length hp, hQ]
    have hnb : newBytesOf st m.uploadId ((some Q).getD []) (some P.length) = P ++ Q := by
      unfold newBytesOf
      rw [if_neg (by simp only [Option.some.injEq]; omega)]
      simp only [hb]
      rfl
    simp only [uploadWrite, hnb, hfS]
    rw [if_pos (by simp only [List.length_append, decide_eq_true_eq]; omega)]
    rw [if_pos hchk]
    simp only [List.length_append, hlen]
  · intro hash freshId st r m bytes n hv hm hp hn hb hok
    by_cases hne : n = bytes.length
    · exact hne
    · exfalso
      have := uploadFile_mismatch416 hash freshId st r m bytes n hv hm hp hn hb hne
      rw [this] at hok
      cases hok

/-- Witness for C5 at a concrete resume: a session holding 1 of 3
declared bytes, resumed at `startByte = 1` with the remaining 2 bytes,
completes with `bytesUploaded = 3`. -/
theorem C5_resumeRange_witness :
    (uploadFile (fun b => if b = [1, 2, 3] then "h" else "x") "g"
      ⟨fun k => if k = "u_d_f"
          then some ⟨"u", "d", "f", some 3, "h", "id", 1, false, ""⟩ else none,
        fun k => if k = "id" then some [1] else none⟩
      ⟨"u", "d", "f", "3", "h", "1", "", "", some [2, 3]⟩).2 = .ok "id" 3 true :=
  C5_resumeRange.2.2.2.1 (fun b => if b = [1, 2, 3] then "h" else "x") "g"
    ⟨fun k => if k = "u_d_f"
        then some ⟨"u", "d", "f", some 3, "h", "id", 1, false, ""⟩ else none,
      fun k => if k = "id" then some [1] else none⟩
    ⟨"u", "d", "f", "3", "h", "1", "", "", some [2, 3]⟩
    ⟨"u", "d", "f", some 3, "h", "id", 1, false, ""⟩ [1] [2, 3] 3
    (by decide) (by decide) (by decide) (by decide) (by decide) (by decide)
    (by decide) (by decide) (by decide)

/-! ## Claim C6 -/

theorem rangeCheck_ne_checksumFailed (st : ServerState) (uploadId : String)
    (sbn : Option Nat) (res : UploadResult)
    (h : rangeCheck st uploadId sbn = some res) : res ≠ .checksumFailed := by
  unfold rangeCheck at h
  split at h
  · split at h
    · split at h
      · split at h
        · cases h
          intro hc
          cases hc
        · cases h
      · cases h
        intro hc
        cases hc
    · cases h
  · cases h

theorem uploadFile_checksumFailed_inv (hash : List Nat → String) (freshId : String)
    (st : ServerState) (r : UploadRequest) (st' : ServerState) (res : UploadResult)
    (heq : uploadFile hash freshId st r = (st', res))
    (hres : res = .checksumFailed) :
    st'.metadataStore = st.metadataStore ∧
    st'.uploads (sessionMetadata st r freshId).uploadId = none := by
  unfold uploadFile at heq
  split at heq
  · cases heq
    cases hres
  · split at heq
    · cases heq
      rename_i hrc
      exact absurd hres (rangeCheck_ne_checksumFailed _ _ _ _ hrc)
    · simp only [uploadWrite] at heq
      split at heq
      · split at heq
        · cases heq
          cases hres
        · cases heq
          refine ⟨rfl, ?_⟩
          simp
      · cases heq
        cases hres

/-- C6 counterexample: the claim demands that after any upload whose
persisted size reaches the declared size with a mismatching recomputed
checksum, every subsequent Check for the same (key, checksum, size)
reports `{exists:false, uploadedSize:0, isComplete:false}`.  Take a
session already complete (metadata `isComplete:true`, checksum `"c"`,
size 1, bytes `[7]` on disk) and re-upload garbage `[9]` from byte 0:
the handler deletes the persisted file and answers 400, but the
metadata file is left untouched, so the subsequent Check with the same
checksum and size answers the 409 conflict
`{exists:true, isComplete:true}` — not `exists:false`. -/
theorem C6_counterexample :
    ((uploadFile (fun b => if b = [7] then "c" else "x") "g"
        ⟨fun k => if k = "u_d_f"
            then some ⟨"u", "d", "f", some 1, "c", "id", 1, true, ""⟩ else none,
          fun k => if k = "id" then some [7] else none⟩
        ⟨"u", "d", "f", "1", "c", "", "", "", some [9]⟩).2 = .checksumFailed) ∧
    ((uploadFile (fun b => if b = [7] then "c" else "x") "g"
        ⟨fun k => if k = "u_d_f"
            then some ⟨"u", "d", "f", some 1, "c", "id", 1, true, ""⟩ else none,
          fun k => if k = "id" then some [7] else none⟩
        ⟨"u", "d", "f", "1", "c", "", "", "", some [9]⟩).1.uploads "id" = none) ∧
    ((checkUpload
        (uploadFile (fun b => if b = [7] then "c" else "x") "g"
          ⟨fun k => if k = "u_d_f"
              then some ⟨"u", "d", "f", some 1, "c", "id", 1, true, ""⟩ else none,
            fun k => if k = "id" then some [7] else none⟩
          ⟨"u", "d", "f", "1", "c", "", "", "", some [9]⟩).1
        ⟨"u", "d", "f", 1, "c"⟩).2.fsExists = true) ∧
    ((checkUpload
        (uploadFile (fun b => if b = [7] then "c" else "x") "g"
          ⟨fun k => if k = "u_d_f"
              then some ⟨"u", "d", "f", some 1, "c", "id", 1, true, ""⟩ else none,
            fun k => if k = "id" then some [7] else none⟩
          ⟨"u", "d", "f", "1", "c", "", "", "", some [9]⟩).1
        ⟨"u", "d", "f", 1, "c"⟩).2.isComplete = true) := by
  refine ⟨?_, ?_, ?_, ?_⟩ <;> decide

/-- C6 amended: restricted to sessions that are not already complete
(the normal in-progress case), a checksum-verification failure deletes
the persisted partial file and answers 400, and every subsequent Check
for the same key whose checksum and declared size match the stored
session reports `{exists:false, uploadedSize:0, isComplete:false}`;
for an already-complete session the stale metadata survives and a
subsequent Check answers the 409 conflict instead. -/
theorem C6_checksumMismatchReset :
    ∀ (hash : List Nat → String) (freshId : String) (st : ServerState)
      (r : UploadRequest),
      validUploadFields r →
      (∀ m, st.metadataStore (getFileKey r.username r.deviceId r.fileName) = some m →
        m.isComplete = false) →
      (uploadFile hash freshId st r).2 = .checksumFailed →
      ((uploadFile hash freshId st r).2.status = 400 ∧
       (∀ m, st.metadataStore (getFileKey r.username r.deviceId r.fileName) = some m →
          (uploadFile hash freshId st r).1.uploads m.uploadId = none) ∧
       (∀ q : CheckRequest,
          q.username = r.username → q.deviceId = r.deviceId → q.fileName = r.fileName →
          (∀ m, st.metadataStore (getFileKey r.username r.deviceId r.fileName) = some m →
            q.checksum = m.checksum ∧ m.fileSize = some q.fileSize) →
          (checkUpload (uploadFile hash freshId st r).1 q).2.fsExists = false ∧
          (checkUpload (uploadFile hash freshId st r).1 q).2.uploadedSize = 0 ∧
          (checkUpload (uploadFile hash freshId st r).1 q).2.isComplete = false)) := by
  intro hash freshId st r hv hnc hres
  obtain ⟨hms, hupl⟩ :=
    uploadFile_checksumFailed_inv hash freshId st r
      (uploadFile hash freshId st r).1 (uploadFile hash freshId st r).2 rfl hres
  refine ⟨by rw [hres]; rfl, ?_, ?_⟩
  · intro m hm
    have hid : (sessionMetadata st r freshId).uploadId = m.uploadId := by
      rw [sessionMetadata_found st r freshId m hm]
    rw [← hid]
    exact hupl
  · intro q hqu hqd hqf hqm
    have hkey : getFileKey q.username q.deviceId q.fileName =
        getFileKey r.username r.deviceId r.fileName := by
      unfold getFileKey
      rw [hqu, hqd, hqf]
    by_cases hvq : q.username = "" ∨ q.deviceId = "" ∨ q.fileName = "" ∨ q.fileSize = 0
        ∨ q.checksum = ""
    · unfold checkUpload
      rw [if_pos hvq]
      exact ⟨rfl, rfl, rfl⟩
    · cases hsm : st.metadataStore (getFileKey r.username r.deviceId r.fileName) with
      | none =>
        have hsm' : (uploadFile hash freshId st r).1.metadataStore
            (getFileKey q.username q.deviceId q.fileName) = none := by
          rw [hms, hkey, hsm]
        rw [checkUpload_notFound _ q hvq hsm']
        exact ⟨rfl, rfl, rfl⟩
      | some m =>
        have hic := hnc m hsm
        obtain ⟨hqc, hqs⟩ := hqm m hsm
        have hsm' : (uploadFile hash freshId st r).1.metadataStore
            (getFileKey q.username q.deviceId q.fileName) = some m := by
          rw [hms, hkey, hsm]
        rw [checkUpload_foundMeta _ q m hvq hsm']
        unfold checkFound
        have hcond : ¬(m.isComplete = true ∧ m.checksum = q.checksum ∧
            jsEqSize m.fileSize q.fileSize = true) := by
          intro hand
          rw [hic] at hand
          cases hand.1
        have hcond2 : ¬(jsEqSize m.fileSize q.fileSize = false ∨ m.checksum ≠ q.checksum) := by
          simp [jsEqSize, hqs, hqc]
        rw [if_neg hcond, if_neg hcond2]
        have hupl2 : (uploadFile hash freshId st r).1.uploads m.uploadId = none := by
          have hid : (sessionMetadata st r freshId).uploadId = m.uploadId := by
            rw [sessionMetadata_found st r freshId m hsm]
          rw [← hid]
          exact hupl
        simp only [hupl2]
        exact ⟨trivial, trivial, trivial⟩

/-- Witness for C6 amended at a concrete in-progress session: metadata
records 0 of 1 byte with checksum `"c"`, garbage `[9]` is uploaded
from byte 0 under a hash that never matches; the response is 400 and
the subsequent matching Check reports not-found. -/
theorem C6_checksumMismatchReset_witness :
    ((uploadFile (fun _ => "x") "g"
        ⟨fun k => if k = "u_d_f"
            then some ⟨"u", "d", "f", some 1, "c", "id", 0, false, ""⟩ else none,
          fun _ => none⟩
        ⟨"u", "d", "f", "1", "c", "", "", "", some [9]⟩).2.status = 400) ∧
    ((checkUpload
        (uploadFile (fun _ => "x") "g"
          ⟨fun k => if k = "u_d_f"
              then some ⟨"u", "d", "f", some 1, "c", "id", 0, false, ""⟩ else none,
            fun _ => none⟩
          ⟨"u", "d", "f", "1", "c", "", "", "", some [9]⟩).1
        ⟨"u", "d", "f", 1, "c"⟩).2.fsExists = false) := by
  have h := C6_checksumMismatchReset (fun _ => "x") "g"
    ⟨fun k => if k = "u_d_f"
        then some ⟨"u", "d", "f", some 1, "c", "id", 0, false, ""⟩ else none,
      fun _ => none⟩
    ⟨"u", "d", "f", "1", "c", "", "", "", some [9]⟩
    (by decide)
    (by
      intro m hm
      have hk : getFileKey "u" "d" "f" = "u_d_f" := by decide
      rw [hk] at hm
      simp only [if_pos] at hm
      cases hm
      rfl)
    (by decide)
  exact ⟨h.1, (h.2.2 ⟨"u", "d", "f", 1, "c"⟩ rfl rfl rfl
    (by
      intro m hm
      have hk : getFileKey "u" "d" "f" = "u_d_f" := by decide
      rw [hk] at hm
      simp only [if_pos] at hm
      cases hm
      exact ⟨rfl, rfl⟩)).1⟩

/-! ## Claim C8 -/

theorem requestsSent_flagged (cfg : ClientConfig) (c : Nat) (l : List Nat) :
    requestsSent cfg ⟨true, c⟩ l = 1 := by
  cases l with
  | nil => rfl
  | cons s rest =>
    simp only [requestsSent]
    unfold retryStep
    rw [if_neg (by simp)]
    rfl

/-- C8 counterexample: the claim says every 5xx response is retried up
to `retryAttempts` times.  In the code the interceptor retries only
when the status is exactly 500, and the `_retry` flag it sets blocks
any second retry: a 502 produces a single request (no retry at all),
and a run of consecutive 500s under `retryAttempts = 3` produces only
2 requests (one retry), not 4. -/
theorem C8_counterexample :
    requestsSent ⟨3, 1000⟩ freshRequest [502] = 1 ∧
    requestsSent ⟨3, 1000⟩ freshRequest [500, 500, 500, 500] = 2 := by
  exact ⟨by decide, by decide⟩

/-- C8 amended: the transport retry fires only for status exactly 500
(409, 416 and 400 — and every other non-500 status, including other
5xx — are never retried); the delay before retry n is
`(retryDelay || 1000) * n` and the retry bumps `_retryCount` and sets
`_retry`; because `_retry` is set on the first retry, a logical call
sends at most 2 requests in total, and a first-attempt 500 sends
exactly 2 (the configured `retryAttempts` never limits further, the
flag does). -/
theorem C8_retryPolicy :
    (∀ (cfg : ClientConfig) (req : RequestMarks) (s : Nat)
       (out : RequestMarks × Nat),
       retryStep cfg (some s) req = some out → s = 500) ∧
    (∀ (cfg : ClientConfig) (req : RequestMarks),
       retryStep cfg (some 409) req = none ∧ retryStep cfg (some 416) req = none ∧
       retryStep cfg (some 400) req = none) ∧
    (∀ (cfg : ClientConfig) (req req2 : RequestMarks) (d : Nat),
       retryStep cfg (some 500) req = some (req2, d) →
       d = jsOrNat cfg.retryDelay 1000 * (req.retryCount + 1) ∧
       req2.retryCount = req.retryCount + 1 ∧ req2.retryFlag = true) ∧
    (∀ (cfg : ClientConfig) (l : List Nat),
       requestsSent cfg freshRequest l ≤ 2) ∧
    (∀ (cfg : ClientConfig) (l : List Nat),
       requestsSent cfg freshRequest (500 :: l) = 2) := by
  refine ⟨?_, ?_, ?_, ?_, ?_⟩
  · intro cfg req s out h
    unfold retryStep at h
    split at h
    · rename_i hcond
      cases hcond.1
      rfl
    · cases h
  · intro cfg req
    refine ⟨?_, ?_, ?_⟩ <;> (unfold retryStep; rw [if_neg (by simp)])
  · intro cfg req req2 d h
    unfold retryStep at h
    split at h
    · cases h
      exact ⟨rfl, rfl, rfl⟩
    · cases h
  · intro cfg l
    cases l with
    | nil => simp [requestsSent]
    | cons s rest =>
      simp only [requestsSent]
      cases hrs : retryStep cfg (some s) freshRequest with
      | none =>
        show 1 + 0 ≤ 2
        decide
      | some out =>
        obtain ⟨req2, d⟩ := out
        have hflag : req2 = (⟨true, 1⟩ : RequestMarks) := by
          unfold retryStep at hrs
          split at hrs
          · cases hrs
            rfl
          · cases hrs
        show 1 + requestsSent cfg req2 rest ≤ 2
        rw [hflag, requestsSent_flagged]
  · intro cfg l
    simp only [requestsSent]
    have hlt : freshRequest.retryCount < jsOrNat cfg.retryAttempts 3 := by
      show 0 < jsOrNat cfg.retryAttempts 3
      unfold jsOrNat
      split
      · decide
      · omega
    have hstep : retryStep cfg (some 500) freshRequest =
        some (⟨true, 1⟩, jsOrNat cfg.retryDelay 1000 * 1) := by
      unfold retryStep
      rw [if_pos ⟨rfl, rfl, hlt⟩]
      rfl
    rw [hstep]
    show 1 + requestsSent cfg ⟨true, 1⟩ l = 2
    rw [requestsSent_flagged]

/-- Witness for C8 amended: with the default budget, a first-attempt
500 is retried exactly once (two requests), and the retry bound holds
on a longer run of failures. -/
theorem C8_retryPolicy_witness :
    requestsSent ⟨3, 1000⟩ freshRequest [500] = 2 ∧
    (2000 = jsOrNat 2000 1000 * (freshRequest.retryCount + 1) ∧
     (⟨true, 1⟩ : RequestMarks).retryCount = freshRequest.retryCount + 1 ∧
     (⟨true, 1⟩ : RequestMarks).retryFlag = true) :=
  ⟨C8_retryPolicy.2.2.2.2 ⟨3, 1000⟩ [],
   C8_retryPolicy.2.2.1 ⟨3, 2000⟩ freshRequest ⟨true, 1⟩ 2000 (by decide)⟩

/-! ## Claim C9 -/

theorem uploadFileResumable_complete (file : List Nat)
    (cr : ClientCheckResponse) (outcome : Except ApiFailure ClientUploadResponse)
    (hic : cr.isComplete = true) :
    uploadFileResumable file cr outcome =
      ([.check file.length],
       .ok ⟨true, cr.uploadId.getD "", file.length, true⟩) := by
  unfold uploadFileResumable
  rw [if_pos hic]

theorem uploadFileResumable_resume (file : List Nat)
    (cr : ClientCheckResponse) (outcome : Except ApiFailure ClientUploadResponse)
    (hic : cr.isComplete = false)
    (hcond : cr.fsExists = true ∧ 0 < cr.uploadedSize) :
    uploadFileResumable file cr outcome =
      ([.check file.length,
        .upload (some cr.uploadedSize) (file.drop cr.uploadedSize) cr.uploadId],
       outcome) := by
  unfold uploadFileResumable
  rw [if_neg (by simp [hic]), if_pos hcond]

theorem uploadFileResumable_scratch (file : List Nat)
    (cr : ClientCheckResponse) (outcome : Except ApiFailure ClientUploadResponse)
    (hic : cr.isComplete = false)
    (hcond : ¬(cr.fsExists = true ∧ 0 < cr.uploadedSize)) :
    uploadFileResumable file cr outcome =
      ([.check file.length, .upload none file none], outcome) := by
  unfold uploadFileResumable
  rw [if_neg (by simp [hic]), if_neg hcond]

/-- C9: the resumable helper calls Check exactly once and first; when
the check reports complete it returns success without any Upload call;
otherwise it makes exactly one Upload call — with
`startByte = uploadedSize` and the payload sliced from that offset
when the check reports an existing upload with `uploadedSize > 0`,
from byte 0 with the whole payload otherwise; it never makes a second
Upload call (no internal loop on 416), and an error outcome of the
single Upload call — such as a 416 — propagates to the caller
unchanged. -/
theorem C9_resumableHelper :
    ∀ (file : List Nat) (cr : ClientCheckResponse)
      (outcome : Except ApiFailure ClientUploadResponse),
      ((uploadFileResumable file cr outcome).1.countP
          (fun c => match c with | .check _ => true | _ => false) = 1 ∧
       (uploadFileResumable file cr outcome).1.head? = some (.check file.length)) ∧
      (cr.isComplete = true →
        (uploadFileResumable file cr outcome).1 = [.check file.length] ∧
        (uploadFileResumable file cr outcome).2 =
          .ok ⟨true, cr.uploadId.getD "", file.length, true⟩) ∧
      (cr.isComplete = false → cr.fsExists = true → 0 < cr.uploadedSize →
        (uploadFileResumable file cr outcome).1 =
          [.check file.length,
           .upload (some cr.uploadedSize) (file.drop cr.uploadedSize) cr.uploadId] ∧
        (uploadFileResumable file cr outcome).2 = outcome) ∧
      (cr.isComplete = false → (cr.fsExists = false ∨ cr.uploadedSize = 0) →
        (uploadFileResumable file cr outcome).1 =
          [.check file.length, .upload none file none] ∧
        (uploadFileResumable file cr outcome).2 = outcome) ∧
      ((uploadFileResumable file cr outcome).1.countP
          (fun c => match c with | .upload _ _ _ => true | _ => false) ≤ 1) ∧
      (∀ e, cr.isComplete = false → outcome = .error e →
        (uploadFileResumable file cr outcome).2 = .error e) := by
  intro file cr outcome
  by_cases hic : cr.isComplete = true
  · rw [uploadFileResumable_complete file cr outcome hic]
    refine ⟨⟨by simp [List.countP, List.countP.go], rfl⟩, ?_, ?_, ?_, ?_, ?_⟩
    · intro _
      exact ⟨rfl, rfl⟩
    · intro hf
      rw [hic] at hf
      cases hf
    · intro hf
      rw [hic] at hf
      cases hf
    · simp [List.countP, List.countP.go]
    · intro e hf
      rw [hic] at hf
      cases hf
  · have hic' : cr.isComplete = false := by
      cases h : cr.isComplete
      · rfl
      · exact absurd h hic
    by_cases hcond : cr.fsExists = true ∧ 0 < cr.uploadedSize
    · rw [uploadFileResumable_resume file cr outcome hic' hcond]
      refine ⟨⟨by simp [List.countP, List.countP.go], rfl⟩, ?_, ?_, ?_, ?_, ?_⟩
      · intro hf
        rw [hic'] at hf
        cases hf
      · intro _ _ _
        exact ⟨rfl, rfl⟩
      · intro _ hor
        rcases hor with h | h
        · rw [hcond.1] at h
          cases h
        · rw [h] at hcond
          exact absurd hcond.2 (by omega)
      · simp [List.countP, List.countP.go]
      · intro e _ hout
        rw [hout]
    · rw [uploadFileResumable_scratch file cr outcome hic' hcond]
      refine ⟨⟨by simp [List.countP, List.countP.go], rfl⟩, ?_, ?_, ?_, ?_, ?_⟩
      · intro hf
        rw [hic'] at hf
        cases hf
      · intro _ hex hpos
        exact absurd ⟨hex, hpos⟩ hcond
      · intro _ _
        exact ⟨rfl, rfl⟩
      · simp [List.countP, List.countP.go]
      · intro e _ hout
        rw [hout]

/-- Witness for C9 at a concrete resume: a 3-byte file whose check
reports 2 bytes already uploaded yields one Check and one Upload at
`startByte = 2` with the last byte as payload. -/
theorem C9_resumableHelper_witness :
    (uploadFileResumable [1, 2, 3] ⟨true, 2, false, some "id"⟩
      (.ok ⟨true, "id", 3, true⟩)).1 =
      [.check 3, .upload (some 2) [3] (some "id")] ∧
    (uploadFileResumable [1, 2, 3] ⟨true, 2, false, some "id"⟩
      (.ok ⟨true, "id", 3, true⟩)).2 = .ok ⟨true, "id", 3, true⟩ :=
  (C9_resumableHelper [1, 2, 3] ⟨true, 2, false, some "id"⟩
    (.ok ⟨true, "id", 3, true⟩)).2.2.1 rfl rfl (by decide)

/-! ## Claim C10 -/

theorem rangeCheck_ne_missingFields (st : ServerState) (uploadId : String)
    (sbn : Option Nat) (res : UploadResult)
    (h : rangeCheck st uploadId sbn = some res) : res ≠ .missingFields := by
  unfold rangeCheck at h
  split at h
  · split at h
    · split at h
      · split at h
        · cases h
          intro hc
          cases hc
        · cases h
      · cases h
        intro hc
        cases hc
    · cases h
  · cases h

theorem uploadFile_ne_missingFields (hash : List Nat → String) (freshId : String)
    (st : ServerState) (r : UploadRequest) (st' : ServerState) (res : UploadResult)
    (heq : uploadFile hash freshId st r = (st', res))
    (hv : ¬(r.username = "" ∨ r.deviceId = "" ∨ r.fileName = "" ∨ r.fileSize = ""
      ∨ r.checksum = "" ∨ r.file = none)) :
    res ≠ .missingFields := by
  unfold uploadFile at heq
  rw [if_neg hv] at heq
  split at heq
  · cases heq
    rename_i hrc
    exact rangeCheck_ne_missingFields _ _ _ _ hrc
  · simp only [uploadWrite] at heq
    split at heq
    · split at heq
      · cases heq
        intro hc
        cases hc
      · cases heq
        intro hc
        cases hc
    · cases heq
      intro hc
      cases hc

/-- C10 counterexample: the claim concludes that an empty file can
never be checked or uploaded through the public API.  The check half
is right (the falsiness test rejects the JSON number 0), but through
the multipart upload endpoint `fileSize` travels as a string, and the
string `"0"` is truthy: a request declaring size 0 with an empty file
part and the empty content's checksum passes validation and completes
successfully — an empty file CAN be uploaded. -/
theorem C10_counterexample :
    (uploadFile (fun _ => "e") "g" ⟨fun _ => none, fun _ => none⟩
      ⟨"u", "d", "f", "0", "e", "", "", "", some []⟩).2 = .ok "g" 0 true := by
  decide

/-- C10 amended: a check request whose `fileSize` is the number 0 is
rejected with 400 `Missing required fields` by the falsiness presence
test, so an empty file can never be *checked*; but an upload request's
`fileSize` is a multipart string, and with the truthy string `"0"` a
request that is otherwise field-complete is never rejected as missing
fields — an empty file can be uploaded (see the counterexample for a
completed empty upload). -/
theorem C10_zeroFileSize :
    (∀ (st : ServerState) (u d f c : String),
       checkUpload st ⟨u, d, f, 0, c⟩ =
         (st, ⟨400, some "Missing required fields", false, 0, false, false, none⟩)) ∧
    (∀ (hash : List Nat → String) (freshId : String) (st : ServerState)
       (r : UploadRequest),
       r.fileSize = "0" → validUploadFields r →
       (uploadFile hash freshId st r).2 ≠ .missingFields) := by
  constructor
  · intro st u d f c
    unfold checkUpload
    rw [if_pos (Or.inr (Or.inr (Or.inr (Or.inl rfl))))]
  · intro hash freshId st r _ hv
    exact uploadFile_ne_missingFields hash freshId st r
      (uploadFile hash freshId st r).1 (uploadFile hash freshId st r).2 rfl
      (validUploadFields_neg r hv)

/-- Witness for C10 amended: a concrete zero-size check is rejected
and a concrete string-`"0"` upload is not rejected as missing
fields. -/
theorem C10_zeroFileSize_witness :
    checkUpload ⟨fun _ => none, fun _ => none⟩ ⟨"a", "b", "c", 0, "d"⟩ =
      (⟨fun _ => none, fun _ => none⟩,
       ⟨400, some "Missing required fields", false, 0, false, false, none⟩) ∧
    (uploadFile (fun _ => "e") "g2" ⟨fun _ => none, fun _ => none⟩
      ⟨"u", "d", "f", "0", "e", "", "", "", some [1]⟩).2 ≠ .missingFields :=
  ⟨C10_zeroFileSize.1 ⟨fun _ => none, fun _ => none⟩ "a" "b" "c" "d",
   C10_zeroFileSize.2 (fun _ => "e") "g2" ⟨fun _ => none, fun _ => none⟩
     ⟨"u", "d", "f", "0", "e", "", "", "", some [1]⟩ rfl (by decide)⟩

end NodeDrive
